import Mathlib

/-!
# A shallow embedding of the `signals` reactive-state library

This file embeds the core of the `coregx/signals` Go library — writable
signals (`signal`), computed signals (`computed`), effects (`effect`) and the
type-erased dependency tracker (`trackDependencyHelper`) — as executable Lean
definitions, and proves the behavioural properties stated in the design
document against them.

Modelling conventions:
* The library is sequentialised: one operation runs at a time, locks and the
  double-checked flag reads collapse to their single-threaded meaning.
* Go's `map[uint64]func(T)` subscriber storage becomes an association list of
  `(id, callback)` pairs together with the monotonically increasing `nextID`
  counter.  Map iteration order is unspecified in Go, and no property proved
  here depends on the order in which the snapshot is traversed.
* Side-effecting callbacks are abstract tokens of a type `C`; executing a
  notification round threads an abstract world `W` through a callback
  semantics `runCb : C → T → W → W × Bool`, the `Bool` recording whether the
  callback panicked.  `recover` blocks become the fold continuing after a
  panicking step and applying the `onPanic` handler.
* Fallible user code (a compute function or an effect body that may panic)
  returns `Option`: `none` models a panic caught by the surrounding `recover`.
* The lock-free `atomic.Int64` read/write metric counters are omitted: no
  observable behaviour of the library depends on them.
-/

set_option autoImplicit false

namespace Signals

/-! ## Subscriber storage

Mirrors the `subscribers map[uint64]func(T)` / `nextID uint64` pair that both
`signal` and `computed` carry, with the operations the Go code performs on it:
registration under a fresh id and deletion by id. -/

structure SubMap (C : Type) where
  subscribers : List (Nat × C)
  nextID : Nat
  deriving Repr, DecidableEq

def SubMap.empty (C : Type) : SubMap C :=
  { subscribers := [], nextID := 0 }

/-- `id := nextID; nextID++; subscribers[id] = fn` — returns the new map and
the id handed to the returned unsubscribe closure. -/
def SubMap.subscribe {C : Type} (m : SubMap C) (fn : C) : SubMap C × Nat :=
  ({ subscribers := m.subscribers ++ [(m.nextID, fn)], nextID := m.nextID + 1 }, m.nextID)

/-- `delete(subscribers, id)` — Go's `delete` on a map is a no-op when the key
is absent. -/
def SubMap.unsubscribe {C : Type} (m : SubMap C) (id : Nat) : SubMap C :=
  { subscribers := m.subscribers.filter (fun p => p.1 != id), nextID := m.nextID }

/-- The keys currently present in the subscriber map. -/
def SubMap.keys {C : Type} (m : SubMap C) : List Nat :=
  m.subscribers.map Prod.fst

/-! ## The writable signal -/

/-- One delivery of a value to one registered callback: the registration id,
the callback token and the value passed to it. -/
structure Invocation (T C : Type) where
  id : Nat
  cb : C
  val : T
  deriving Repr, DecidableEq

/-- `signal[T]` from `options.go`: current value, optional custom equality
function, subscriber map.  Callbacks are abstract tokens of type `C`. -/
structure signal (T C : Type) where
  value : T
  equal : Option (T → T → Bool)
  subs : SubMap C

/-- `New(initial)` — no equality function. -/
def signal.New {T C : Type} (initial : T) : signal T C :=
  { value := initial, equal := none, subs := SubMap.empty C }

/-- `NewWithOptions(initial, opts)` restricted to the `Equal` option. -/
def signal.NewWithOptions {T C : Type} (initial : T) (equal : Option (T → T → Bool)) :
    signal T C :=
  { value := initial, equal := equal, subs := SubMap.empty C }

/-- `Get()` — returns the current value. -/
def signal.Get {T C : Type} (s : signal T C) : T :=
  s.value

/-- `Set(newValue)`.  If an equality function is configured and holds on
`(current, newValue)`, return without storing or notifying.  Otherwise store
the value and snapshot the subscribers; the returned list is the notification
round delivered (outside the lock) to every snapshotted callback with the new
value. -/
def signal.Set {T C : Type} (s : signal T C) (newValue : T) :
    signal T C × List (Invocation T C) :=
  if (match s.equal with
      | some eq => eq s.value newValue
      | none => false) then
    (s, [])
  else
    ({ s with value := newValue },
     s.subs.subscribers.map (fun p => { id := p.1, cb := p.2, val := newValue }))

/-- `Update(fn)` — atomic read-transform-write with the same equality
short-circuit and subscriber snapshot as `Set`. -/
def signal.Update {T C : Type} (s : signal T C) (fn : T → T) :
    signal T C × List (Invocation T C) :=
  let newValue := fn s.value
  if (match s.equal with
      | some eq => eq s.value newValue
      | none => false) then
    (s, [])
  else
    ({ s with value := newValue },
     s.subs.subscribers.map (fun p => { id := p.1, cb := p.2, val := newValue }))

/-- `Subscribe` — registers the callback under a fresh id and returns the id
the unsubscribe closure captures.  (The context-cancellation watcher goroutine
performs the same `delete` as the manual path; only the manual path is needed
by the properties below.) -/
def signal.Subscribe {T C : Type} (s : signal T C) (fn : C) : signal T C × Nat :=
  let r := s.subs.subscribe fn
  ({ s with subs := r.1 }, r.2)

/-- The body of the unsubscribe closure returned by `Subscribe`:
`delete(s.subscribers, id)`. -/
def signal.unsubscribe {T C : Type} (s : signal T C) (id : Nat) : signal T C :=
  { s with subs := s.subs.unsubscribe id }

/-! ## Executing a notification round

`notifySubscribers` iterates over the snapshotted callbacks; each invocation
runs inside its own `recover` block, so a panic in one callback is captured,
handed to `onPanic` (or the default log-and-continue handler, also modelled as
a world action), and iteration continues with the next callback. -/

def notifySubscribers {T C W : Type} (runCb : C → T → W → W × Bool) (onPanic : W → W) :
    List (Invocation T C) → W → W × List (Invocation T C)
  | [], w => (w, [])
  | inv :: rest, w =>
    let r1 := runCb inv.cb inv.val w
    let w2 := if r1.2 then onPanic r1.1 else r1.1
    let r2 := notifySubscribers runCb onPanic rest w2
    (r2.1, inv :: r2.2)

/-- `Set` followed by the execution of its notification round. -/
def signal.SetAndNotify {T C W : Type} (runCb : C → T → W → W × Bool) (onPanic : W → W)
    (s : signal T C) (v : T) (w : W) : signal T C × W × List (Invocation T C) :=
  let r := s.Set v
  let r2 := notifySubscribers runCb onPanic r.2 w
  (r.1, r2.1, r2.2)

/-! ## The computed signal

The compute closure reads its dependencies, so it is modelled as a function of
a dependency environment `E`; a result of `none` is a panic caught by the
`recover` block around `c.cached = c.compute()`. -/

/-- `computed[T]` from `computed.go`: memoised value, dirty flag, its own
subscriber map.  The dependency unsubscribe list is carried by the combined
systems below where it matters. -/
structure computed (T D : Type) where
  cached : T
  dirty : Bool
  subs : SubMap D

/-- The state built by `ComputedWithOptions` before dependency tracking:
`cached` is Go's zero value (a parameter here), the cell starts dirty, no
subscribers. -/
def computed.init {T D : Type} (zero : T) : computed T D :=
  { cached := zero, dirty := true, subs := SubMap.empty D }

/-- `Get()`.  Fast path: not dirty — return `cached`.  Slow path: run the
compute function under `recover`; on success store the result and on panic
keep the old `cached`; either way `dirty.Store(false)` executes after the
recovery block, and the (possibly stale) `cached` is returned.  The third
component records whether the compute function was invoked. -/
def computed.Get {T D E : Type} (compute : E → Option T) (env : E) (c : computed T D) :
    T × computed T D × Bool :=
  if c.dirty = false then
    (c.cached, c, false)
  else
    match compute env with
    | some v => (v, { c with cached := v, dirty := false }, true)
    | none => (c.cached, { c with dirty := false }, true)

/-- `markDirty()` — the dependency-change handler registered at construction:
set the dirty flag, recompute via `Get`, and snapshot this cell's own
subscribers into a notification round carrying the recomputed value. -/
def computed.markDirty {T D E : Type} (compute : E → Option T) (env : E)
    (c : computed T D) : computed T D × List (Invocation T D) :=
  let c1 : computed T D := { c with dirty := true }
  let r := computed.Get compute env c1
  (r.2.1, r.2.1.subs.subscribers.map (fun p => { id := p.1, cb := p.2, val := r.1 }))

/-- `Subscribe` on a computed signal — structurally identical to the signal
version. -/
def computed.Subscribe {T D : Type} (c : computed T D) (fn : D) : computed T D × Nat :=
  let r := c.subs.subscribe fn
  ({ c with subs := r.1 }, r.2)

/-- The unsubscribe closure returned by `computed.Subscribe`. -/
def computed.unsubscribe {T D : Type} (c : computed T D) (id : Nat) : computed T D :=
  { c with subs := c.subs.unsubscribe id }

/-! ## The effect

The effect body may panic (outer `Option` is `none`) and otherwise returns an
optional cleanup, modelled as a token of type `L`; running a cleanup token
may itself panic, decided by the `clPanics` semantics.  Events record, in
order, every cleanup run, body run (with its environment and whether it
panicked) and dependency-subscription cancellation. -/

inductive EffEvent (E L : Type) where
  | cleanupRun (cl : L) (panicked : Bool)
  | bodyRun (env : E) (panicked : Bool)
  | unsub (handle : Nat)
  deriving Repr, DecidableEq

/-- `effect` from `effect.go`: current cleanup, stopped flag, and the
unsubscribe handles collected by `trackDependency`. -/
structure effect (L : Type) where
  cleanup : Option L
  stopped : Bool
  unsubscribes : List Nat

/-- `run()` — one execution cycle: early return when stopped (the pre-lock
check and the post-lock double-check collapse sequentially); run and discard
the prior cleanup under `recover`; run the body under `recover`, a panic
leaving `newCleanup` nil; store the captured cleanup. -/
def effect.run {E L : Type} (body : E → Option (Option L)) (clPanics : L → Bool)
    (env : E) (e : effect L) : effect L × List (EffEvent E L) :=
  if e.stopped then
    (e, [])
  else
    let step1 : effect L × List (EffEvent E L) :=
      match e.cleanup with
      | some oldCleanup =>
        ({ e with cleanup := none },
         [EffEvent.cleanupRun oldCleanup (clPanics oldCleanup)])
      | none => (e, [])
    match body env with
    | some newCleanup =>
      ({ step1.1 with cleanup := newCleanup }, step1.2 ++ [EffEvent.bodyRun env false])
    | none =>
      ({ step1.1 with cleanup := none }, step1.2 ++ [EffEvent.bodyRun env true])

/-- `Stop()` — guarded by `stopped.Swap(true)`: only the caller that flips the
flag runs the final cleanup (under `recover`) and cancels every dependency
subscription; every other call returns immediately. -/
def effect.Stop {L : Type} (E : Type) (clPanics : L → Bool) (e : effect L) :
    effect L × List (EffEvent E L) :=
  if e.stopped then
    (e, [])
  else
    let e1 : effect L := { e with stopped := true }
    let step1 : effect L × List (EffEvent E L) :=
      match e1.cleanup with
      | some cl => ({ e1 with cleanup := none }, [EffEvent.cleanupRun cl (clPanics cl)])
      | none => (e1, [])
    ({ step1.1 with unsubscribes := [] },
     step1.2 ++ step1.1.unsubscribes.map EffEvent.unsub)

/-- `Stop()` invoked `n` times in a row, accumulating events. -/
def effect.StopN {L : Type} (E : Type) (clPanics : L → Bool) :
    Nat → effect L → effect L × List (EffEvent E L)
  | 0, e => (e, [])
  | n + 1, e =>
    let r := effect.Stop E clPanics e
    let r2 := effect.StopN E clPanics n r.1
    (r2.1, r.2 ++ r2.2)

/-- `EffectWithOptions(fn, opts, deps...)` — builds the effect, tracks the
dependencies (their unsubscribe handles are `handles`), then runs one cycle
synchronously before returning. -/
def EffectWithOptions {E L : Type} (body : E → Option (Option L)) (clPanics : L → Bool)
    (env : E) (handles : List Nat) : effect L × List (EffEvent E L) :=
  effect.run body clPanics env
    { cleanup := none, stopped := false, unsubscribes := handles }

/-- `EffectWithCleanup(fn, deps...) = EffectWithOptions(fn, {}, deps...)`. -/
def EffectWithCleanup {E L : Type} (body : E → Option (Option L)) (clPanics : L → Bool)
    (env : E) (handles : List Nat) : effect L × List (EffEvent E L) :=
  EffectWithOptions body clPanics env handles

/-- `Effect(fn, deps...)` — wraps a cleanup-less body: on success the wrapped
body returns a nil cleanup, a panic propagates to the wrapper's caller's
`recover`. -/
def Effect {E L : Type} (fn : E → Option Unit) (clPanics : L → Bool)
    (env : E) (handles : List Nat) : effect L × List (EffEvent E L) :=
  EffectWithCleanup
    (fun env2 =>
      match fn env2 with
      | some _ => some none
      | none => none)
    clPanics env handles

/-! ## The dependency tracker

`trackDependencyHelper` / `subscribeAnyType` from `internal.go`, over a
classification of the shapes a dependency value can have.  `H` is the handle
returned by an actual `SubscribeForever` call.  A result of `Except.error ()`
is an uncaught panic escaping to the caller (there is no `recover` in
`internal.go`). -/

inductive DepShape (H : Type) where
  /-- Implements the `subscriber` interface, i.e. exposes
  `SubscribeForever(fn func(any)) Unsubscribe` directly. -/
  | subscriberCap (h : H)
  /-- One of the concrete `ReadonlySignal[int|string|bool|float64|int64]`
  shapes handled by the type switch. -/
  | knownConcrete (h : H)
  /-- Some other value carrying a method named `SubscribeForever`, described
  by its reflected signature: the number of parameters and results, whether
  the single parameter is itself a function type, and whether the result type
  is `Unsubscribe`. -/
  | reflectMethod (numIn numOut : Nat) (argIsFunc : Bool) (retIsUnsub : Bool) (h : H)
  /-- A valid value with no method named `SubscribeForever`. -/
  | noMethod
  /-- A `nil` dependency: `reflect.ValueOf(dep)` is the invalid `Value`. -/
  | nilValue
  deriving Repr, DecidableEq

/-- The cancellation handle returned by the tracker: either a real
unsubscribe handle or the no-op `func() {}`. -/
inductive Handle (H : Type) where
  | real (h : H)
  | noop
  deriving Repr, DecidableEq

/-- Calling the cancellation handle against subscription state `S`:
a real handle runs the unsubscribe action, the no-op handle does nothing. -/
def runHandle {H S : Type} (unsub : H → S → S) : Handle H → S → S
  | Handle.real h, st => unsub h st
  | Handle.noop, st => st

/-- `subscribeAnyType(dep, onChange)` — the reflective fallback.  An invalid
value, a missing method, or a method with the wrong number of parameters or
results yields the no-op handle.  Past those checks the code calls
`reflect.MakeFunc(fnType.In(0), …)`, which panics when that parameter type is
not a function type.  When the call goes through, the result is the returned
handle if it type-asserts to `Unsubscribe`, else the no-op handle. -/
def subscribeAnyType {H : Type} : DepShape H → Except Unit (Handle H)
  | DepShape.nilValue => Except.ok Handle.noop
  | DepShape.noMethod => Except.ok Handle.noop
  | DepShape.reflectMethod numIn numOut argIsFunc retIsUnsub h =>
    if numIn ≠ 1 ∨ numOut ≠ 1 then Except.ok Handle.noop
    else if argIsFunc = false then Except.error ()
    else if retIsUnsub then Except.ok (Handle.real h)
    else Except.ok Handle.noop
  | DepShape.subscriberCap h => Except.ok (Handle.real h)
  | DepShape.knownConcrete h => Except.ok (Handle.real h)

/-- `trackDependencyHelper(dep, onChange)`: direct interface assertion first,
then the concrete type switch, then the reflective fallback. -/
def trackDependencyHelper {H : Type} : DepShape H → Except Unit (Handle H)
  | DepShape.subscriberCap h => Except.ok (Handle.real h)
  | DepShape.knownConcrete h => Except.ok (Handle.real h)
  | d => subscribeAnyType d

/-! ## A computed signal over one writable dependency

The closed system `B = ComputedWithOptions(compute, A.AsReadonly())`: the
signal's single subscriber is the watcher registered by `trackDependency`,
whose callback discards the delivered value and calls `markDirty`; the compute
closure reads the dependency through `A.Get()`, so its environment is the
signal's current value. -/

structure SigComp (A T : Type) where
  a : signal A Unit
  comp : computed T Unit

/-- Construction: create the signal, create the computed cell dirty, and
subscribe the `markDirty` watcher to the signal via the tracker. -/
def ComputedOverSignal {A T : Type} (a0 : A) (zero : T) : SigComp A T :=
  let s : signal A Unit := signal.New a0
  let r := s.Subscribe ()
  { a := r.1, comp := computed.init zero }

/-- Deliver the signal's notification round: each snapshotted watcher runs
`markDirty`, which recomputes against the dependency's current value
(`A.Get()`) and emits the computed cell's own notification round. -/
def SigComp.runWatchers {A T : Type} (compute : A → Option T) :
    List (Invocation A Unit) → signal A Unit → computed T Unit →
    computed T Unit × List (Invocation T Unit)
  | [], _, c => (c, [])
  | _ :: rest, s, c =>
    let r := computed.markDirty compute (signal.Get s) c
    let r2 := SigComp.runWatchers compute rest s r.1
    (r2.1, r.2 ++ r2.2)

/-- `A.Set(v)` in the combined system: the store-and-snapshot of `signal.Set`,
then the round is delivered to the watcher(s). -/
def SigComp.setA {A T : Type} (compute : A → Option T) (sc : SigComp A T) (v : A) :
    SigComp A T × List (Invocation T Unit) :=
  let r := sc.a.Set v
  let r2 := SigComp.runWatchers compute r.2 r.1 sc.comp
  ({ a := r.1, comp := r2.1 }, r2.2)

/-- A whole sequence of dependency mutations. -/
def SigComp.runSets {A T : Type} (compute : A → Option T) (sc : SigComp A T) :
    List A → SigComp A T × List (Invocation T Unit)
  | [] => (sc, [])
  | v :: vs =>
    let r := SigComp.setA compute sc v
    let r2 := SigComp.runSets compute r.1 vs
    (r2.1, r.2 ++ r2.2)

/-! ## An effect over one writable dependency -/

structure SigEff (A L : Type) where
  a : signal A Unit
  e : effect L

/-- Construction: subscribe the `e.run` watcher to the signal, then build the
effect (recording the dependency unsubscribe handle) — which immediately runs
one cycle with the body observing the signal's current value. -/
def EffectOverSignal {A L : Type} (body : A → Option (Option L)) (clPanics : L → Bool)
    (a0 : A) : SigEff A L × List (EffEvent A L) :=
  let s : signal A Unit := signal.New a0
  let r := s.Subscribe ()
  let r2 := EffectWithOptions body clPanics (signal.Get r.1) [r.2]
  ({ a := r.1, e := r2.1 }, r2.2)

/-- Deliver the signal's notification round to the effect watcher(s): each
triggers one execution cycle against the dependency's current value. -/
def SigEff.runWatchers {A L : Type} (body : A → Option (Option L)) (clPanics : L → Bool) :
    List (Invocation A Unit) → signal A Unit → effect L →
    effect L × List (EffEvent A L)
  | [], _, e => (e, [])
  | _ :: rest, s, e =>
    let r := effect.run body clPanics (signal.Get s) e
    let r2 := SigEff.runWatchers body clPanics rest s r.1
    (r2.1, r.2 ++ r2.2)

/-- `A.Set(v)` in the combined system. -/
def SigEff.setA {A L : Type} (body : A → Option (Option L)) (clPanics : L → Bool)
    (se : SigEff A L) (v : A) : SigEff A L × List (EffEvent A L) :=
  let r := se.a.Set v
  let r2 := SigEff.runWatchers body clPanics r.2 r.1 se.e
  ({ a := r.1, e := r2.1 }, r2.2)

/-! ## Operation sequences against one signal

Used to state lifetime properties quantified over everything a caller can
subsequently do to the cell. -/

inductive SigOp (T C : Type) where
  | set (v : T)
  | update (fn : T → T)
  | subscribe (cb : C)
  | unsub (id : Nat)

/-- One operation; its notification round (empty for subscribe/unsubscribe). -/
def signal.step {T C : Type} (s : signal T C) : SigOp T C → signal T C × List (Invocation T C)
  | SigOp.set v => s.Set v
  | SigOp.update fn => s.Update fn
  | SigOp.subscribe cb => ((s.Subscribe cb).1, [])
  | SigOp.unsub id => (s.unsubscribe id, [])

/-- A sequence of operations, concatenating the notification rounds. -/
def signal.runOps {T C : Type} (s : signal T C) :
    List (SigOp T C) → signal T C × List (Invocation T C)
  | [] => (s, [])
  | op :: ops =>
    let r := s.step op
    let r2 := r.1.runOps ops
    (r2.1, r.2 ++ r2.2)

/-! ## Invariants and helper lemmas -/

/-- Every id present in the subscriber map is below `nextID` — the invariant
maintained by `subscribe`/`unsubscribe` that makes fresh ids genuinely fresh. -/
@[reducible]
def SubMap.idsBelow {C : Type} (m : SubMap C) : Prop :=
  ∀ p ∈ m.subscribers, p.1 < m.nextID

theorem SubMap.idsBelow_empty {C : Type} : (SubMap.empty C).idsBelow := by
  intro p hp
  simp [SubMap.empty] at hp

theorem SubMap.idsBelow_subscribe {C : Type} {m : SubMap C} (hm : m.idsBelow) (fn : C) :
    ((m.subscribe fn).1).idsBelow := by
  intro p hp
  simp only [SubMap.subscribe, List.mem_append, List.mem_singleton] at hp
  rcases hp with hp | hp
  · exact Nat.lt_succ_of_lt (hm p hp)
  · subst hp
    exact Nat.lt_succ_self _

theorem SubMap.idsBelow_unsubscribe {C : Type} {m : SubMap C} (hm : m.idsBelow) (id : Nat) :
    ((m.unsubscribe id)).idsBelow := by
  intro p hp
  simp only [SubMap.unsubscribe, List.mem_filter] at hp
  exact hm p hp.1

theorem SubMap.mem_unsubscribe {C : Type} (m : SubMap C) (id : Nat) (p : Nat × C) :
    p ∈ (m.unsubscribe id).subscribers ↔ p ∈ m.subscribers ∧ p.1 ≠ id := by
  simp [SubMap.unsubscribe, List.mem_filter]

theorem SubMap.unsubscribe_idem {C : Type} (m : SubMap C) (id : Nat) :
    (m.unsubscribe id).unsubscribe id = m.unsubscribe id := by
  simp [SubMap.unsubscribe, List.filter_filter]

theorem SubMap.fresh_id {C : Type} {m : SubMap C} (hm : m.idsBelow) (fn : C) :
    ∀ p ∈ m.subscribers, p.1 ≠ (m.subscribe fn).2 := by
  intro p hp
  exact Nat.ne_of_lt (hm p hp)

/-- Fault isolation in a notification round: the executed invocation list is
exactly the snapshotted round, whatever the panic pattern. -/
theorem notifySubscribers_executes_all {T C W : Type} (runCb : C → T → W → W × Bool)
    (onPanic : W → W) (invs : List (Invocation T C)) (w : W) :
    (notifySubscribers runCb onPanic invs w).2 = invs := by
  induction invs generalizing w with
  | nil => rfl
  | cons inv rest ih => simp [notifySubscribers, ih]

/-- The cleanup tokens run by a list of effect events, in order. -/
def cleanupEvents {E L : Type} : List (EffEvent E L) → List L
  | [] => []
  | EffEvent.cleanupRun cl _ :: rest => cl :: cleanupEvents rest
  | EffEvent.bodyRun _ _ :: rest => cleanupEvents rest
  | EffEvent.unsub _ :: rest => cleanupEvents rest

/-- The dependency-subscription handles cancelled by a list of effect events. -/
def unsubEvents {E L : Type} : List (EffEvent E L) → List Nat
  | [] => []
  | EffEvent.cleanupRun _ _ :: rest => unsubEvents rest
  | EffEvent.bodyRun _ _ :: rest => unsubEvents rest
  | EffEvent.unsub h :: rest => h :: unsubEvents rest

theorem cleanupEvents_append {E L : Type} (l1 l2 : List (EffEvent E L)) :
    cleanupEvents (l1 ++ l2) = cleanupEvents l1 ++ cleanupEvents l2 := by
  induction l1 with
  | nil => rfl
  | cons ev rest ih => cases ev <;> simp [cleanupEvents, ih]

theorem unsubEvents_append {E L : Type} (l1 l2 : List (EffEvent E L)) :
    unsubEvents (l1 ++ l2) = unsubEvents l1 ++ unsubEvents l2 := by
  induction l1 with
  | nil => rfl
  | cons ev rest ih => cases ev <;> simp [unsubEvents, ih]

theorem cleanupEvents_map_unsub {E L : Type} (hs : List Nat) :
    cleanupEvents (hs.map (EffEvent.unsub (E := E) (L := L))) = [] := by
  induction hs with
  | nil => rfl
  | cons h rest ih => simp [cleanupEvents, ih]

theorem unsubEvents_map_unsub {E L : Type} (hs : List Nat) :
    unsubEvents (hs.map (EffEvent.unsub (E := E) (L := L))) = hs := by
  induction hs with
  | nil => rfl
  | cons h rest ih => simp [unsubEvents, ih]

/-- A stopped effect runs no execution cycle. -/
theorem effect_run_stopped {E L : Type} (body : E → Option (Option L))
    (clPanics : L → Bool) (env : E) {e : effect L} (hs : e.stopped = true) :
    effect.run body clPanics env e = (e, []) := by
  simp [effect.run, hs]

/-- `Stop` on an already stopped effect is a no-op. -/
theorem effect_Stop_stopped {L : Type} (E : Type) (clPanics : L → Bool) {e : effect L}
    (hs : e.stopped = true) : effect.Stop E clPanics e = (e, []) := by
  simp [effect.Stop, hs]

/-- After any `Stop`, the stopped flag is set. -/
theorem effect_Stop_sets_stopped {L : Type} (E : Type) (clPanics : L → Bool)
    (e : effect L) : ((effect.Stop (E := E) clPanics e).1).stopped = true := by
  by_cases hs : e.stopped
  · simp [effect.Stop, hs]
  · simp only [effect.Stop, hs, if_neg, Bool.false_eq_true, not_false_iff, if_false]
    cases hc : e.cleanup <;> simp

/-- Repeated `Stop` on an already stopped effect stays a no-op. -/
theorem effect_StopN_stopped {L : Type} (E : Type) (clPanics : L → Bool) (n : Nat)
    {e : effect L} (hs : e.stopped = true) :
    effect.StopN E clPanics n e = (e, []) := by
  induction n with
  | zero => rfl
  | succ n ih => simp [effect.StopN, effect_Stop_stopped E clPanics hs, ih]

/-- An id that has been removed and is below `nextID` stays absent across any
single operation, and the bound survives. -/
theorem step_dead_id {T C : Type} {s : signal T C} {id : Nat} (op : SigOp T C)
    (habs : id ∉ s.subs.keys) (hlt : id < s.subs.nextID) :
    id ∉ ((s.step op).1).subs.keys ∧ id < ((s.step op).1).subs.nextID := by
  cases op with
  | set v =>
    simp only [signal.step, signal.Set]
    split <;> exact ⟨habs, hlt⟩
  | update fn =>
    simp only [signal.step, signal.Update]
    split <;> exact ⟨habs, hlt⟩
  | subscribe cb =>
    simp only [signal.step, signal.Subscribe, SubMap.subscribe]
    constructor
    · intro hmem
      simp only [SubMap.keys, List.map_append, List.mem_append, List.map_cons,
        List.mem_singleton, List.map_nil, List.mem_cons] at hmem
      rcases hmem with hmem | hmem
      · exact habs (by simpa [SubMap.keys] using hmem)
      · simp at hmem
        omega
    · exact Nat.lt_succ_of_lt hlt
  | unsub j =>
    simp only [signal.step, signal.unsubscribe, SubMap.unsubscribe]
    constructor
    · intro hmem
      simp only [SubMap.keys, List.mem_map, List.mem_filter] at hmem
      obtain ⟨p, ⟨hp, _⟩, hpid⟩ := hmem
      exact habs (by
        simp only [SubMap.keys, List.mem_map]
        exact ⟨p, hp, hpid⟩)
    · exact hlt

/-- Every invocation a single operation emits carries an id present in the
subscriber map at that moment. -/
theorem step_trace_ids {T C : Type} (s : signal T C) (op : SigOp T C) :
    ∀ inv ∈ (s.step op).2, inv.id ∈ s.subs.keys := by
  intro inv hinv
  cases op with
  | set v =>
    simp only [signal.step, signal.Set] at hinv
    split at hinv
    · simp at hinv
    · simp only [List.mem_map] at hinv
      obtain ⟨p, hp, hpe⟩ := hinv
      simp only [SubMap.keys, List.mem_map]
      exact ⟨p, hp, by rw [← hpe]⟩
  | update fn =>
    simp only [signal.step, signal.Update] at hinv
    split at hinv
    · simp at hinv
    · simp only [List.mem_map] at hinv
      obtain ⟨p, hp, hpe⟩ := hinv
      simp only [SubMap.keys, List.mem_map]
      exact ⟨p, hp, by rw [← hpe]⟩
  | subscribe cb => simp [signal.step] at hinv
  | unsub j => simp [signal.step] at hinv

/-- A removed id below `nextID` never shows up in the trace of any later
operation sequence. -/
theorem runOps_dead_id {T C : Type} (ops : List (SigOp T C)) :
    ∀ (s : signal T C) (id : Nat), id ∉ s.subs.keys → id < s.subs.nextID →
    ∀ inv ∈ (s.runOps ops).2, inv.id ≠ id := by
  induction ops with
  | nil =>
    intro s id _ _ inv hinv
    simp [signal.runOps] at hinv
  | cons op rest ih =>
    intro s id habs hlt inv hinv
    simp only [signal.runOps, List.mem_append] at hinv
    rcases hinv with hinv | hinv
    · intro heq
      exact habs (heq ▸ step_trace_ids s op inv hinv)
    · obtain ⟨habs2, hlt2⟩ := step_dead_id op habs hlt
      exact ih (s.step op).1 id habs2 hlt2 inv hinv

/-- The wiring invariant of the one-dependency computed system: the signal's
only subscriber is the `markDirty` watcher registered at construction, the
signal has no equality function, and the computed cell is either dirty or
caches the compute function applied to the dependency's current value. -/
def SigComp.Wired {A T : Type} (compute : A → Option T) (sc : SigComp A T) : Prop :=
  sc.a.subs.subscribers = [(0, ())] ∧ sc.a.equal = none ∧
    (sc.comp.dirty = true ∨ compute (signal.Get sc.a) = some sc.comp.cached)

theorem SigComp.wired_init {A T : Type} (compute : A → Option T) (a0 : A) (zero : T) :
    SigComp.Wired compute (ComputedOverSignal a0 zero) := by
  refine ⟨rfl, rfl, Or.inl rfl⟩

theorem SigComp.wired_setA {A T : Type} {compute : A → Option T}
    (h : ∀ x, (compute x).isSome) {sc : SigComp A T} (hw : SigComp.Wired compute sc)
    (v : A) : SigComp.Wired compute (SigComp.setA compute sc v).1 := by
  obtain ⟨hsubs, heq, _⟩ := hw
  obtain ⟨y, hy⟩ := Option.isSome_iff_exists.mp (h v)
  refine ⟨?_, ?_, Or.inr ?_⟩ <;>
    simp [SigComp.setA, signal.Set, heq, hsubs, SigComp.runWatchers,
      computed.markDirty, computed.Get, signal.Get, hy]

theorem SigComp.wired_runSets {A T : Type} {compute : A → Option T}
    (h : ∀ x, (compute x).isSome) (vs : List A) :
    ∀ sc : SigComp A T, SigComp.Wired compute sc →
      SigComp.Wired compute (SigComp.runSets compute sc vs).1 := by
  induction vs with
  | nil => intro sc hw; exact hw
  | cons v rest ih =>
    intro sc hw
    exact ih _ (SigComp.wired_setA h hw v)

/-- In a wired state with a fault-free compute function, `Get` returns the
compute function applied to the dependency's current value. -/
theorem SigComp.wired_get {A T : Type} {compute : A → Option T}
    (h : ∀ x, (compute x).isSome) {sc : SigComp A T} (hw : SigComp.Wired compute sc) :
    compute (signal.Get sc.a) =
      some ((computed.Get compute (signal.Get sc.a) sc.comp).1) := by
  obtain ⟨y, hy⟩ := Option.isSome_iff_exists.mp (h (signal.Get sc.a))
  rcases hw.2.2 with hd | hc
  · simp [computed.Get, hd, hy]
  · by_cases hdirty : sc.comp.dirty = false
    · simpa [computed.Get, hdirty] using hc
    · simp only [Bool.not_eq_false] at hdirty
      simp [computed.Get, hdirty, hy]

/-! ## Claim theorems -/

/-- C1 (counterexample): start from a freshly constructed (dirty) computed
cell over a compute function that always faults.  After the faulting
recompute inside `Get`, the dirty flag is `false` — not left untouched as the
claim states — and the next `Get` does not invoke the compute function at
all (third component `false`), so there is no retry. -/
theorem C1_counterexample :
    ((computed.Get (fun _ : Unit => (none : Option Int)) ()
        (computed.init (D := Unit) 0)).2.1.dirty = false) ∧
    ((computed.Get (fun _ : Unit => (none : Option Int)) ()
        (computed.Get (fun _ : Unit => (none : Option Int)) ()
          (computed.init (D := Unit) 0)).2.1).2.2 = false) :=
  ⟨rfl, rfl⟩

/-- C1 (amended): when the compute function faults during a recompute, the
cached value is left untouched and `Get` returns the stale cached value, but
the dirty flag is cleared exactly as on success (`dirty.Store(false)` runs
after the recovery block).  Consequently the next `Get` takes the fast path —
it returns the stale value without invoking the compute function — and the
computation is only retried once a dependency change marks the cell dirty
again. -/
theorem C1_theorem {T D E : Type} (compute : E → Option T) (env env2 env3 : E)
    (c : computed T D) (hd : c.dirty = true) (hf : compute env = none) :
    (computed.Get compute env c).1 = c.cached ∧
    (computed.Get compute env c).2.1.cached = c.cached ∧
    (computed.Get compute env c).2.1.dirty = false ∧
    (computed.Get compute env2 (computed.Get compute env c).2.1).2.2 = false ∧
    (computed.Get compute env2 (computed.Get compute env c).2.1).1 = c.cached ∧
    (computed.Get compute env3
      { (computed.Get compute env c).2.1 with dirty := true }).2.2 = true := by
  refine ⟨?_, ?_, ?_, ?_, ?_, ?_⟩ <;> simp [computed.Get, hd, hf]
  cases compute env3 <;> simp

/-- C1 (witness for the amended theorem). -/
theorem C1_witness :
    ((computed.init (D := Unit) (7 : Int)).dirty = true ∧
      (fun _ : Unit => (none : Option Int)) () = none) ∧
    (computed.Get (fun _ : Unit => (none : Option Int)) ()
      (computed.init (D := Unit) (7 : Int))).1 = 7 :=
  ⟨⟨rfl, rfl⟩,
    (C1_theorem (fun _ : Unit => (none : Option Int)) () () ()
      (computed.init (D := Unit) (7 : Int)) rfl rfl).1⟩

/-- C2: constructing an effect (through `Effect`, `EffectWithCleanup` or
`EffectWithOptions`) produces, synchronously and before the constructor
returns, an event trace consisting of exactly one body execution observing
the dependency environment as it was at construction — before any dependency
mutation. -/
theorem C2_theorem {E L : Type} (body : E → Option (Option L)) (fn : E → Option Unit)
    (clPanics : L → Bool) (env : E) (handles : List Nat) :
    (EffectWithOptions body clPanics env handles).2 =
      [EffEvent.bodyRun env (body env).isNone] ∧
    (EffectWithCleanup body clPanics env handles).2 =
      [EffEvent.bodyRun env (body env).isNone] ∧
    (Effect (L := L) fn clPanics env handles).2 =
      [EffEvent.bodyRun env (fn env).isNone] := by
  refine ⟨?_, ?_, ?_⟩
  · simp only [EffectWithOptions, effect.run]
    cases hb : body env <;> simp [hb]
  · simp only [EffectWithCleanup, EffectWithOptions, effect.run]
    cases hb : body env <;> simp [hb]
  · simp only [Effect, EffectWithCleanup, EffectWithOptions, effect.run]
    cases hb : fn env <;> simp [hb]

/-- C3: `Set(v)` semantics.  Without an equality function, `Get` right after
`Set(v)` returns exactly `v` and the notification round delivers `v` once to
every registered subscriber.  With an equality function, `Set(v)` is a
complete no-op (no store, empty round) when `equality(current, v)` holds, and
otherwise stores `v` and delivers one notification per subscriber. -/
theorem C3_theorem {T C : Type} (s : signal T C) (v : T) :
    (s.equal = none →
      signal.Get (s.Set v).1 = v ∧
      (s.Set v).2 = s.subs.subscribers.map (fun p => { id := p.1, cb := p.2, val := v })) ∧
    (∀ eq, s.equal = some eq → eq s.value v = true → s.Set v = (s, [])) ∧
    (∀ eq, s.equal = some eq → eq s.value v = false →
      signal.Get (s.Set v).1 = v ∧
      (s.Set v).2 = s.subs.subscribers.map (fun p => { id := p.1, cb := p.2, val := v })) := by
  refine ⟨?_, ?_, ?_⟩
  · intro h
    simp [signal.Set, signal.Get, h]
  · intro eq h heq
    simp [signal.Set, h, heq]
  · intro eq h heq
    simp [signal.Set, signal.Get, h, heq]

/-- A concrete signal without an equality function and with two subscribers. -/
def sigNoEq : signal Nat Nat :=
  { value := 0, equal := none,
    subs := { subscribers := [(0, 10), (1, 11)], nextID := 2 } }

/-- A concrete signal comparing values with `==`, one subscriber. -/
def sigWithEq : signal Nat Nat :=
  { value := 5, equal := some (fun a b => a == b),
    subs := { subscribers := [(0, 10)], nextID := 1 } }

/-- C3 (witness). -/
theorem C3_witness :
    (signal.Get (sigNoEq.Set 7).1 = 7 ∧
      (sigNoEq.Set 7).2 =
        sigNoEq.subs.subscribers.map (fun p => { id := p.1, cb := p.2, val := 7 })) ∧
    sigWithEq.Set 5 = (sigWithEq, []) ∧
    (signal.Get (sigWithEq.Set 6).1 = 6 ∧
      (sigWithEq.Set 6).2 =
        sigWithEq.subs.subscribers.map (fun p => { id := p.1, cb := p.2, val := 6 })) :=
  ⟨(C3_theorem sigNoEq 7).1 rfl,
    (C3_theorem sigWithEq 5).2.1 (fun a b => a == b) rfl rfl,
    (C3_theorem sigWithEq 6).2.2 (fun a b => a == b) rfl rfl⟩

/-- C4: for the computed cell constructed over a writable dependency, after
any sequence of fault-free dependency mutations, `Get` returns exactly the
compute function applied to the dependency's current value — the watcher
subscribed at construction keeps working across mutations with no
resubscription. -/
theorem C4_theorem {A T : Type} (compute : A → Option T)
    (h : ∀ x, (compute x).isSome) (a0 : A) (zero : T) (vs : List A) :
    compute (signal.Get (SigComp.runSets compute (ComputedOverSignal a0 zero) vs).1.a) =
      some ((computed.Get compute
        (signal.Get (SigComp.runSets compute (ComputedOverSignal a0 zero) vs).1.a)
        (SigComp.runSets compute (ComputedOverSignal a0 zero) vs).1.comp).1) :=
  SigComp.wired_get h
    (SigComp.wired_runSets h vs _ (SigComp.wired_init compute a0 zero))

/-- C4 (witness): the specified scenario B = Derive(()=>A.Get()*2, A) with
A initially 5 (B.Get() = 10) and after A.Set(10) (B.Get() = 20). -/
theorem C4_witness :
    (∀ x : Int, ((fun y : Int => some (2 * y)) x).isSome) ∧
    (fun y : Int => some (2 * y))
        (signal.Get (SigComp.runSets (fun y : Int => some (2 * y))
          (ComputedOverSignal 5 0) [10]).1.a) =
      some ((computed.Get (fun y : Int => some (2 * y))
        (signal.Get (SigComp.runSets (fun y : Int => some (2 * y))
          (ComputedOverSignal 5 0) [10]).1.a)
        (SigComp.runSets (fun y : Int => some (2 * y))
          (ComputedOverSignal 5 0) [10]).1.comp).1) ∧
    (computed.Get (fun y : Int => some (2 * y))
        (signal.Get (ComputedOverSignal (T := Int) 5 0).a)
        (ComputedOverSignal (T := Int) 5 0).comp).1 = 10 ∧
    (computed.Get (fun y : Int => some (2 * y))
        (signal.Get (SigComp.runSets (fun y : Int => some (2 * y))
          (ComputedOverSignal 5 0) [10]).1.a)
        (SigComp.runSets (fun y : Int => some (2 * y))
          (ComputedOverSignal 5 0) [10]).1.comp).1 = 20 :=
  ⟨fun _ => rfl,
    C4_theorem (fun y : Int => some (2 * y)) (fun _ => rfl) 5 0 [10],
    rfl, rfl⟩

/-- The C5 scenario body: an effect over a `Nat` dependency whose cleanup
token records the dependency value the body observed. -/
def effScenarioBody : Nat → Option (Option Nat) := fun env => some (some env)

/-- The C5 scenario, step 0: construction with the dependency at 0. -/
def effScenario0 : SigEff Nat Nat × List (EffEvent Nat Nat) :=
  EffectOverSignal effScenarioBody (fun _ => false) 0

/-- The C5 scenario, step 1: the dependency mutates 0 → 1. -/
def effScenario1 : SigEff Nat Nat × List (EffEvent Nat Nat) :=
  SigEff.setA effScenarioBody (fun _ => false) effScenario0.1 1

/-- The C5 scenario, step 2: the dependency mutates 1 → 2. -/
def effScenario2 : SigEff Nat Nat × List (EffEvent Nat Nat) :=
  SigEff.setA effScenarioBody (fun _ => false) effScenario1.1 2

/-- C5: one execution cycle runs the prior cleanup (if any) before the body
and then stores the cleanup the body returned; for the scenario — an effect
with cleanup over dependency A mutating 0 → 1 → 2 — the combined event trace
is exactly effect(0), cleanup(0), effect(1), cleanup(1), effect(2). -/
theorem C5_theorem {E L : Type} (body : E → Option (Option L)) (clPanics : L → Bool)
    (env : E) (e : effect L) (cl : L) (newCl : Option L)
    (hs : e.stopped = false) (hc : e.cleanup = some cl) (hb : body env = some newCl) :
    effect.run body clPanics env e =
      ({ e with cleanup := newCl },
       [EffEvent.cleanupRun cl (clPanics cl), EffEvent.bodyRun env false]) ∧
    effScenario0.2 ++ effScenario1.2 ++ effScenario2.2 =
      [EffEvent.bodyRun 0 false, EffEvent.cleanupRun 0 false, EffEvent.bodyRun 1 false,
       EffEvent.cleanupRun 1 false, EffEvent.bodyRun 2 false] := by
  constructor
  · simp [effect.run, hs, hc, hb]
  · rfl

/-- C5 (witness). -/
theorem C5_witness :
    (({ cleanup := some 7, stopped := false, unsubscribes := [] } : effect Nat).stopped
        = false ∧
      ({ cleanup := some 7, stopped := false, unsubscribes := [] } : effect Nat).cleanup
        = some 7 ∧
      (fun _ : Nat => some (some 9)) 4 = some (some 9)) ∧
    effect.run (fun _ : Nat => some (some 9)) (fun _ => false) 4
        { cleanup := some 7, stopped := false, unsubscribes := [] } =
      ({ cleanup := some 9, stopped := false, unsubscribes := [] },
       [EffEvent.cleanupRun 7 false, EffEvent.bodyRun 4 false]) :=
  ⟨⟨rfl, rfl, rfl⟩,
    (C5_theorem (fun _ : Nat => some (some 9)) (fun _ => false) 4
      { cleanup := some 7, stopped := false, unsubscribes := [] } 7 (some 9)
      rfl rfl rfl).1⟩

/-- C6: `Stop` is idempotent.  However many times it is invoked on a
non-stopped effect, the cumulative event trace equals that of the first call
alone, which runs the stored final cleanup exactly once (if one exists) and
cancels every dependency subscription exactly once; and once `Stop` has taken
effect no execution cycle runs. -/
theorem C6_theorem {L : Type} (E : Type) (clPanics : L → Bool) (e : effect L)
    (n : Nat) (hs : e.stopped = false) :
    effect.StopN E clPanics (n + 1) e = effect.Stop E clPanics e ∧
    cleanupEvents (effect.Stop (E := E) clPanics e).2 = e.cleanup.toList ∧
    unsubEvents (effect.Stop (E := E) clPanics e).2 = e.unsubscribes ∧
    (∀ (body : E → Option (Option L)) (env : E),
      effect.run body clPanics env (effect.Stop (E := E) clPanics e).1 =
        ((effect.Stop (E := E) clPanics e).1, [])) := by
  have hstop := effect_Stop_sets_stopped (E := E) clPanics e
  refine ⟨?_, ?_, ?_, ?_⟩
  · simp [effect.StopN, effect_StopN_stopped E clPanics n hstop]
  · cases hc : e.cleanup <;>
      simp [effect.Stop, hs, hc, cleanupEvents_append, cleanupEvents_map_unsub,
        cleanupEvents]
  · cases hc : e.cleanup <;>
      simp [effect.Stop, hs, hc, unsubEvents_append, unsubEvents_map_unsub, unsubEvents]
  · intro body env
    exact effect_run_stopped body clPanics env hstop

/-- C6 (witness): three consecutive `Stop` calls on an effect holding a
cleanup and two dependency subscriptions. -/
theorem C6_witness :
    (({ cleanup := some 7, stopped := false, unsubscribes := [3, 4] } : effect Nat).stopped
        = false) ∧
    effect.StopN Nat (fun _ => false) 3
        { cleanup := some 7, stopped := false, unsubscribes := [3, 4] } =
      effect.Stop Nat (fun _ => false)
        { cleanup := some 7, stopped := false, unsubscribes := [3, 4] } ∧
    cleanupEvents (effect.Stop (E := Nat) (fun _ => false)
        ({ cleanup := some 7, stopped := false, unsubscribes := [3, 4] } : effect Nat)).2 =
      (some 7).toList ∧
    unsubEvents (effect.Stop (E := Nat) (fun _ => false)
        ({ cleanup := some 7, stopped := false, unsubscribes := [3, 4] } : effect Nat)).2 =
      [3, 4] :=
  ⟨rfl,
    (C6_theorem Nat (fun _ => false)
      { cleanup := some 7, stopped := false, unsubscribes := [3, 4] } 2 rfl).1,
    (C6_theorem Nat (fun _ => false)
      { cleanup := some 7, stopped := false, unsubscribes := [3, 4] } 2 rfl).2.1,
    (C6_theorem Nat (fun _ => false)
      { cleanup := some 7, stopped := false, unsubscribes := [3, 4] } 2 rfl).2.2.1⟩

/-- C7: a panic inside one subscriber callback during a notification round
does not prevent the remaining callbacks of the round from being invoked
(the executed round equals the full snapshot, whatever the panic pattern),
leaves the cell's value and subscriber set unchanged, and a subsequent
mutation behaves normally.  The final conjunct is a concrete round in which
the first of two callbacks panics: the panic handler runs exactly once and
the second callback still runs (world counts (onPanic calls, second-callback
calls)). -/
theorem C7_theorem {T C W : Type} (runCb : C → T → W → W × Bool) (onPanic : W → W)
    (s : signal T C) (v v2 : T) (w : W) (h : s.equal = none) :
    ((signal.SetAndNotify runCb onPanic s v w).2.2 =
      s.subs.subscribers.map (fun p => { id := p.1, cb := p.2, val := v })) ∧
    (signal.SetAndNotify runCb onPanic s v w).1.value = v ∧
    (signal.SetAndNotify runCb onPanic s v w).1.subs = s.subs ∧
    ((signal.SetAndNotify runCb onPanic s v w).1.Set v2).1.value = v2 ∧
    ((signal.SetAndNotify runCb onPanic s v w).1.Set v2).2 =
      s.subs.subscribers.map (fun p => { id := p.1, cb := p.2, val := v2 }) ∧
    (notifySubscribers
        (fun cb (_ : Nat) (w2 : Nat × Nat) =>
          if cb then (w2, true) else ((w2.1, w2.2 + 1), false))
        (fun w2 => (w2.1 + 1, w2.2))
        [{ id := 0, cb := true, val := 5 }, { id := 1, cb := false, val := 5 }]
        (0, 0)).1 = (1, 1) := by
  refine ⟨?_, ?_, ?_, ?_, ?_, by decide⟩ <;>
    simp [signal.SetAndNotify, signal.Set, h, notifySubscribers_executes_all]

/-- A concrete signal whose first subscriber token stands for a panicking
callback and whose second is a well-behaved counter. -/
def sigPanicDemo : signal Nat Bool :=
  { value := 0, equal := none,
    subs := { subscribers := [(0, true), (1, false)], nextID := 2 } }

/-- C7 (witness). -/
theorem C7_witness :
    sigPanicDemo.equal = none ∧
    ((signal.SetAndNotify
        (fun cb (_ : Nat) (w2 : Nat × Nat) =>
          if cb then (w2, true) else ((w2.1, w2.2 + 1), false))
        (fun w2 => (w2.1 + 1, w2.2)) sigPanicDemo 5 (0, 0)).2.2 =
      sigPanicDemo.subs.subscribers.map (fun p => { id := p.1, cb := p.2, val := 5 })) ∧
    (signal.SetAndNotify
        (fun cb (_ : Nat) (w2 : Nat × Nat) =>
          if cb then (w2, true) else ((w2.1, w2.2 + 1), false))
        (fun w2 => (w2.1 + 1, w2.2)) sigPanicDemo 5 (0, 0)).1.subs = sigPanicDemo.subs :=
  ⟨rfl,
    (C7_theorem
      (fun cb (_ : Nat) (w2 : Nat × Nat) =>
        if cb then (w2, true) else ((w2.1, w2.2 + 1), false))
      (fun w2 => (w2.1 + 1, w2.2)) sigPanicDemo 5 6 (0, 0) rfl).1,
    (C7_theorem
      (fun cb (_ : Nat) (w2 : Nat × Nat) =>
        if cb then (w2, true) else ((w2.1, w2.2 + 1), false))
      (fun w2 => (w2.1 + 1, w2.2)) sigPanicDemo 5 6 (0, 0) rfl).2.2.1⟩

/-- C8: a single `Set` or `Update` call notifies exactly the subscribers
present in the map when the mutation's critical section completes, all with
the same value for that round (`v` for `Set(v)`, `fn(current)` for
`Update(fn)`); and a subscription that is registered and then cancelled
before any mutation is never invoked by any subsequent operation sequence —
its id never appears in any later notification round. -/
theorem C8_theorem {T C : Type} (s s0 : signal T C) (v : T) (fn : T → T) (cb : C)
    (ops : List (SigOp T C)) (h : s.equal = none) :
    (s.Set v).2 =
      (s.Set v).1.subs.subscribers.map (fun p => { id := p.1, cb := p.2, val := v }) ∧
    (∀ inv ∈ (s.Set v).2, inv.val = v) ∧
    (s.Update fn).2 =
      (s.Update fn).1.subs.subscribers.map
        (fun p => { id := p.1, cb := p.2, val := fn s.value }) ∧
    (∀ inv ∈ (s.Update fn).2, inv.val = fn s.value) ∧
    (∀ inv ∈ (((s0.Subscribe cb).1.unsubscribe (s0.Subscribe cb).2).runOps ops).2,
      inv.id ≠ (s0.Subscribe cb).2) := by
  refine ⟨?_, ?_, ?_, ?_, ?_⟩
  · simp [signal.Set, h]
  · have h1 : (s.Set v).2 =
        s.subs.subscribers.map (fun p => { id := p.1, cb := p.2, val := v }) := by
      simp [signal.Set, h]
    intro inv hinv
    rw [h1, List.mem_map] at hinv
    obtain ⟨p, _, hpe⟩ := hinv
    rw [← hpe]
  · simp [signal.Update, h]
  · have h2 : (s.Update fn).2 =
        s.subs.subscribers.map (fun p => { id := p.1, cb := p.2, val := fn s.value }) := by
      simp [signal.Update, h]
    intro inv hinv
    rw [h2, List.mem_map] at hinv
    obtain ⟨p, _, hpe⟩ := hinv
    rw [← hpe]
  · intro inv hinv
    refine runOps_dead_id ops _ (s0.Subscribe cb).2 ?_ ?_ inv hinv
    · intro hmem
      simp only [SubMap.keys, List.mem_map] at hmem
      obtain ⟨p, hp, hpe⟩ := hmem
      simp only [signal.unsubscribe, signal.Subscribe, SubMap.unsubscribe,
        List.mem_filter] at hp
      have := hp.2
      simp only [bne_iff_ne, ne_eq] at this
      exact this hpe
    · simp [signal.unsubscribe, signal.Subscribe, SubMap.unsubscribe, SubMap.subscribe]

/-- C8 (witness): a `Set` and an `Update` round on a signal with two
subscribers, and — on a fresh signal — subscribe callback 99, cancel it, then
run two mutations, an update and a new subscription: the cancelled id never
appears in the delivered rounds. -/
theorem C8_witness :
    sigNoEq.equal = none ∧
    ((sigNoEq.Set 8).2 =
      (sigNoEq.Set 8).1.subs.subscribers.map
        (fun p => { id := p.1, cb := p.2, val := 8 })) ∧
    ((sigNoEq.Update (fun x => x + 3)).2 =
      (sigNoEq.Update (fun x => x + 3)).1.subs.subscribers.map
        (fun p => { id := p.1, cb := p.2, val := (fun x => x + 3) sigNoEq.value })) ∧
    (∀ inv ∈ (sigNoEq.Update (fun x => x + 3)).2,
      inv.val = (fun x => x + 3) sigNoEq.value) ∧
    (∀ inv ∈
      ((((signal.New (C := Nat) (5 : Nat)).Subscribe 99).1.unsubscribe
          ((signal.New (C := Nat) (5 : Nat)).Subscribe 99).2).runOps
        [SigOp.set 1, SigOp.subscribe 42, SigOp.update (fun x => x * 2),
          SigOp.set 2]).2,
      inv.id ≠ ((signal.New (C := Nat) (5 : Nat)).Subscribe 99).2) :=
  ⟨rfl,
    (C8_theorem sigNoEq (signal.New 5) 8 (fun x => x + 3) 99
      [SigOp.set 1, SigOp.subscribe 42, SigOp.update (fun x => x * 2),
        SigOp.set 2] rfl).1,
    (C8_theorem sigNoEq (signal.New 5) 8 (fun x => x + 3) 99
      [SigOp.set 1, SigOp.subscribe 42, SigOp.update (fun x => x * 2),
        SigOp.set 2] rfl).2.2.1,
    (C8_theorem sigNoEq (signal.New 5) 8 (fun x => x + 3) 99
      [SigOp.set 1, SigOp.subscribe 42, SigOp.update (fun x => x * 2),
        SigOp.set 2] rfl).2.2.2.1,
    (C8_theorem sigNoEq (signal.New 5) 8 (fun x => x + 3) 99
      [SigOp.set 1, SigOp.subscribe 42, SigOp.update (fun x => x * 2),
        SigOp.set 2] rfl).2.2.2.2⟩

/-- C9 (counterexample): a dependency carrying a `SubscribeForever` method
with the right arity (one parameter, one result) whose single parameter is
not a function type — e.g. `SubscribeForever(int) Unsubscribe` — does not
degrade to a no-op handle: `reflect.MakeFunc(fnType.In(0), …)` panics, and
nothing in `internal.go` recovers it, so the construction of the consuming
Computed/Effect panics. -/
theorem C9_counterexample :
    trackDependencyHelper (DepShape.reflectMethod (H := Nat) 1 1 false true 0) =
      Except.error () :=
  rfl

/-- C9 (amended): a nil dependency, a value with no `SubscribeForever`
method, or a `SubscribeForever` with the wrong number of parameters or
results — and also one with the right shape but a result that is not an
`Unsubscribe` — degrades silently to a no-op cancellation handle, which does
nothing when called; but a `SubscribeForever` with exactly one parameter and
one result whose parameter is not a function type makes tracking panic via
`reflect.MakeFunc` instead of degrading. -/
theorem C9_theorem {H S : Type} (numIn numOut : Nat) (argIsFunc retIsUnsub : Bool)
    (h : H) (unsub : H → S → S) (st : S) (harity : ¬(numIn = 1 ∧ numOut = 1)) :
    trackDependencyHelper (DepShape.nilValue (H := H)) = Except.ok Handle.noop ∧
    trackDependencyHelper (DepShape.noMethod (H := H)) = Except.ok Handle.noop ∧
    trackDependencyHelper (DepShape.reflectMethod numIn numOut argIsFunc retIsUnsub h) =
      Except.ok Handle.noop ∧
    trackDependencyHelper (DepShape.reflectMethod 1 1 true false h) =
      Except.ok Handle.noop ∧
    runHandle unsub Handle.noop st = st ∧
    trackDependencyHelper (DepShape.reflectMethod 1 1 false retIsUnsub h) =
      Except.error () := by
  have harity2 : numIn ≠ 1 ∨ numOut ≠ 1 := by tauto
  refine ⟨rfl, rfl, ?_, rfl, rfl, rfl⟩
  simp [trackDependencyHelper, subscribeAnyType, harity2]

/-- C9 (witness): a `SubscribeForever` taking two parameters. -/
theorem C9_witness :
    ¬((2 : Nat) = 1 ∧ (1 : Nat) = 1) ∧
    trackDependencyHelper (DepShape.reflectMethod (H := Nat) 2 1 true true 0) =
      Except.ok Handle.noop ∧
    runHandle (fun (h : Nat) (st : List Nat) => h :: st) Handle.noop [5] = [5] :=
  ⟨by simp,
    (C9_theorem 2 1 true true 0 (fun (h : Nat) (st : List Nat) => h :: st) [5]
      (by simp)).2.2.1,
    (C9_theorem 2 1 true true 0 (fun (h : Nat) (st : List Nat) => h :: st) [5]
      (by simp)).2.2.2.2.1⟩

/-- C10: the unsubscribe operation backing the closure returned by
`Subscribe`/`SubscribeForever` — on both writable and computed cells — is
idempotent: running it again is a no-op (the delete of an absent key), it
removes exactly the entries keyed by its own id and no other registration,
and ids are never reused (a fresh subscription's id differs from every id
currently registered). -/
theorem C10_theorem {T C TT D : Type} (s : signal T C) (c : computed TT D) (id : Nat)
    (cb : C) (cb2 : D) (hs : s.subs.idsBelow) (hc : c.subs.idsBelow) :
    (s.unsubscribe id).unsubscribe id = s.unsubscribe id ∧
    (∀ p, p ∈ (s.unsubscribe id).subs.subscribers ↔
      p ∈ s.subs.subscribers ∧ p.1 ≠ id) ∧
    (∀ p ∈ s.subs.subscribers, p.1 ≠ (s.Subscribe cb).2) ∧
    (c.unsubscribe id).unsubscribe id = c.unsubscribe id ∧
    (∀ p, p ∈ (c.unsubscribe id).subs.subscribers ↔
      p ∈ c.subs.subscribers ∧ p.1 ≠ id) ∧
    (∀ p ∈ c.subs.subscribers, p.1 ≠ (c.Subscribe cb2).2) := by
  refine ⟨?_, ?_, ?_, ?_, ?_, ?_⟩
  · simp [signal.unsubscribe, SubMap.unsubscribe_idem]
  · intro p
    exact SubMap.mem_unsubscribe s.subs id p
  · exact SubMap.fresh_id hs cb
  · simp [computed.unsubscribe, SubMap.unsubscribe_idem]
  · intro p
    exact SubMap.mem_unsubscribe c.subs id p
  · exact SubMap.fresh_id hc cb2

/-- A concrete computed cell with two registered subscribers. -/
def compDemo : computed Nat Nat :=
  { cached := 3, dirty := false,
    subs := { subscribers := [(0, 20), (1, 21)], nextID := 2 } }

/-- C10 (witness). -/
theorem C10_witness :
    (sigNoEq.subs.idsBelow ∧ compDemo.subs.idsBelow) ∧
    (sigNoEq.unsubscribe 0).unsubscribe 0 = sigNoEq.unsubscribe 0 ∧
    (∀ p ∈ sigNoEq.subs.subscribers, p.1 ≠ (sigNoEq.Subscribe 12).2) ∧
    (compDemo.unsubscribe 1).unsubscribe 1 = compDemo.unsubscribe 1 ∧
    (∀ p ∈ compDemo.subs.subscribers, p.1 ≠ (compDemo.Subscribe 22).2) :=
  ⟨⟨by decide, by decide⟩,
    (C10_theorem sigNoEq compDemo 0 12 22 (by decide) (by decide)).1,
    (C10_theorem sigNoEq compDemo 0 12 22 (by decide) (by decide)).2.2.1,
    (C10_theorem sigNoEq compDemo 1 12 22 (by decide) (by decide)).2.2.2.1,
    (C10_theorem sigNoEq compDemo 1 12 22 (by decide) (by decide)).2.2.2.2.2⟩

end Signals
